import Mathlib

/-!
Verification of the request-dispatch layer of the asgi-webdav server
(`asgi_webdav/server.py`).

The file shallowly embeds `Server.__init__`, `Server.__call__`,
`Server.handle` and the application wiring of `get_app`.  The
collaborators those methods call (`DAVAuth`, `WebDAV`, `WebPage`,
`DAVRequest` construction, the static-file middleware) live in modules
that are not part of the analysed source tree; each is modelled either
as an abstract function field (when the dispatcher only forwards to it)
or from the specification's contract (marked `Modelled from the spec:`).

`Server.handle` is instrumented: next to the `DAVResponse` it returns
the ordered list of collaborator invocations (`DispatchEvent`s) the
run performed, so that temporal claims ("the credential check happens
first", "the WebDAV engine is never invoked") become statements about
that trace.  The response component is computed exactly as in the
source; the trace is bookkeeping only.
-/

/-- UTF-8 encoding of a string, as the byte list the Python code produces
with `data.encode("utf-8")` / `bytes(e.message, encoding="utf-8")`. -/
def utf8 (s : String) : List UInt8 :=
  s.data.flatMap (fun c => String.utf8EncodeChar c)

/-- Modelled from the spec: the `DAVUser` identity record produced by the
authentication subsystem (`asgi_webdav/auth.py` is not in the analysed
sources).  Only the username is consulted here. -/
structure DAVUser where
  username : String
deriving DecidableEq, Repr

/-- Modelled from the spec: `DAVPath` (`asgi_webdav/constants.py` is not in
the analysed sources): a normalized path held as its list of segments. -/
structure DAVPath where
  parts : List String
deriving DecidableEq, Repr

/-- `DAVPath.count`: the number of path segments, as consulted by
`request.src_path.count` in `Server.handle`. -/
def DAVPath.count (p : DAVPath) : Nat :=
  p.parts.length

/- Modelled from the spec: the method-name constants of
`asgi_webdav/constants.py` (`DAVMethod.GET` etc.). -/
namespace DAVMethod

def GET : String := "GET"

def PUT : String := "PUT"

def PROPFIND : String := "PROPFIND"

end DAVMethod

/-- Modelled from the spec: `DAVRequest` (`asgi_webdav/request.py` is not in
the analysed sources).  Per the spec a request is "method, normalized path,
header set, optional body"; `user` is the identity slot `Server.handle`
fills after authentication (`request.user, message = ...`). -/
structure DAVRequest where
  method : String
  src_path : DAVPath
  headers : List (String × String) := []
  body : Option String := none
  user : Option DAVUser := none
deriving DecidableEq, Repr

/-- Modelled from the spec: `DAVResponse` (`asgi_webdav/response.py` is not
in the analysed sources): a status code, response headers, and a body. -/
structure DAVResponse where
  status : Nat
  headers : List (String × String) := []
  content : List UInt8 := []
deriving DecidableEq, Repr

/-- Modelled from the spec: the authentication subsystem `DAVAuth`
(`asgi_webdav/auth.py` is not in the analysed sources).  Its
`pick_out_user` contract is the one `Server.handle` consumes: an explicit
outcome value, "an identity-or-absent result paired with a message" —
never an exception. -/
structure DAVAuth where
  pick_out_user : DAVRequest → Option DAVUser × String

/-- Modelled from the spec: the plaintext-equivalent (Basic) challenge
value offered on 401. -/
def DAVAuth.basic_challenge : String :=
  "Basic realm=ASGI-WebDAV"

/-- Modelled from the spec: the nonce-challenge (Digest) challenge value
offered on 401. -/
def DAVAuth.digest_challenge : String :=
  "Digest realm=ASGI-WebDAV, qop=auth, nonce=fresh"

/-- Modelled from the spec: `DAVAuth.create_response_401`
(`asgi_webdav/auth.py` is not in the analysed sources).  Per the spec,
authentication failure "returns 401 with both challenge headers present;
never reveals which part of the credential was wrong": the response body
is a fixed phrase, independent of the internal failure message, and a
`WWW-Authenticate` entry is emitted for each supported scheme. -/
def DAVAuth.create_response_401 (_request : DAVRequest) (_message : String) :
    DAVResponse :=
  { status := 401,
    headers := [("WWW-Authenticate", DAVAuth.basic_challenge),
                ("WWW-Authenticate", DAVAuth.digest_challenge)],
    content := utf8 "401 Unauthorized" }

/-- Modelled from the spec: the WebDAV dispatch engine
(`asgi_webdav/web_dav.py` is not in the analysed sources); only its
`distribute` entry point, as consumed by `Server.handle`, is modelled. -/
structure WebDAV where
  distribute : DAVRequest → DAVResponse

/-- Modelled from the spec: the administrative web-page collaborator
(`asgi_webdav/web_page.py` is not in the analysed sources); its `enter`
entry point yields "an opaque status + body pair". -/
structure WebPage where
  enter : DAVRequest → Nat × String

/-- Modelled from the spec: `ProviderInitException`
(`asgi_webdav/exception.py` is not in the analysed sources), raised when
WebDAV engine construction fails at startup. -/
structure ProviderInitException where
  message : String
deriving DecidableEq, Repr

/-- Modelled from the spec: `NotASGIRequestException`
(`asgi_webdav/exception.py` is not in the analysed sources), raised by
`DAVRequest` construction when the transport scope is not a valid ASGI
request; `Server.__call__` reads its `.message`. -/
structure NotASGIRequestException where
  message : String
deriving DecidableEq, Repr

/-- The `Server` object of `server.py` after a successful `__init__`:
the three collaborator fields it stores. -/
structure Server where
  dav_auth : DAVAuth
  web_dav : WebDAV
  web_page : WebPage

/-- Outcome of `Server.__init__`: either a constructed server, or the
process exit taken by `sys.exit()` in the `except ProviderInitException`
branch (no server value exists afterwards, so no request is ever
handled). -/
inductive InitResult where
  | started (server : Server)
  | exited

/-- `Server.__init__` (server.py lines 31-42).  `DAVAuth(config)` is the
already-constructed `dav_auth`; `WebDAV(config)` is a constructor outcome
that either yields the engine or raises `ProviderInitException`, in which
case the code logs and calls `sys.exit()`. -/
def Server.init (dav_auth : DAVAuth)
    (web_dav_ctor : Except ProviderInitException WebDAV)
    (web_page : WebPage) : InitResult :=
  match web_dav_ctor with
  | .error _ => .exited
  | .ok web_dav =>
      .started { dav_auth := dav_auth, web_dav := web_dav, web_page := web_page }

/-- Collaborator invocations recorded by the instrumented dispatcher:
the credential check (`dav_auth.pick_out_user`), the administrative
web-page collaborator (`web_page.enter`), and the WebDAV engine
(`web_dav.distribute`). -/
inductive DispatchEvent where
  | authenticate
  | adminRoute
  | webdavDispatch
deriving DecidableEq, Repr

/-- `Server.handle` (server.py lines 68-92), instrumented with the ordered
trace of collaborator invocations.  The response component follows the
source line by line: pick out the user (storing it on the request); on
`None` return `create_response_401`; on a `GET` whose path has a first
segment and it is `"_"`, return the web page's status and UTF-8-encoded
body; otherwise return `web_dav.distribute`'s response. -/
def Server.handle (s : Server) (request : DAVRequest) :
    DAVResponse × List DispatchEvent :=
  let picked := s.dav_auth.pick_out_user request
  let request := { request with user := picked.1 }
  match picked.1 with
  | none =>
      (DAVAuth.create_response_401 request picked.2,
       [DispatchEvent.authenticate])
  | some _ =>
      if request.method = DAVMethod.GET ∧ request.src_path.count ≥ 1 ∧
          request.src_path.parts[0]? = some "_" then
        let page := s.web_page.enter request
        ({ status := page.1, content := utf8 page.2 },
         [DispatchEvent.authenticate, DispatchEvent.adminRoute])
      else
        let response := s.web_dav.distribute request
        (response, [DispatchEvent.authenticate, DispatchEvent.webdavDispatch])

/-- `Server.__call__` (server.py lines 44-66): construct the `DAVRequest`
from the transport scope; on `NotASGIRequestException` send a 400 whose
body is the exception's message, without handling; otherwise handle and
send the handler's response.  Request construction is passed in as its
outcome (`request.py` is not in the analysed sources). -/
def Server.call (s : Server)
    (parse : Except NotASGIRequestException DAVRequest) :
    DAVResponse × List DispatchEvent :=
  match parse with
  | .error e => ({ status := 400, content := utf8 e.message }, [])
  | .ok request => s.handle request

/-- Modelled from the spec: `ASGIMiddlewareStaticFile` (external package
`asgi_middleware_static_file`, outside this repository).  Its contract:
a request whose path falls under `static_url` is answered directly from
the static root, without invoking the wrapped application; every other
request is passed through. -/
def ASGIMiddlewareStaticFile (static_url : List String)
    (static_serve : DAVPath → DAVResponse)
    (app : Except NotASGIRequestException DAVRequest →
      DAVResponse × List DispatchEvent)
    (parse : Except NotASGIRequestException DAVRequest)
    (path : DAVPath) : DAVResponse × List DispatchEvent :=
  if path.parts.take static_url.length = static_url then
    (static_serve path, [])
  else
    app parse

/-- `get_app` (server.py lines 119-126), application wiring only: the
`Server` wrapped by the static-file middleware with
`static_url="_/static"` (whose segments are `["_", "static"]`).
Configuration loading, logging and the optional Sentry wrapper are
out-of-scope collaborators. -/
def get_app (s : Server) (static_serve : DAVPath → DAVResponse)
    (parse : Except NotASGIRequestException DAVRequest)
    (path : DAVPath) : DAVResponse × List DispatchEvent :=
  ASGIMiddlewareStaticFile ["_", "static"] static_serve (Server.call s)
    parse path

-- Concrete collaborators for witnesses and counterexamples.

/-- A concrete user for witness instances. -/
def exUser : DAVUser := { username := "user1" }

/-- An authenticator that accepts every request as `exUser`. -/
def authAccept : DAVAuth :=
  { pick_out_user := fun _ => (some exUser, "") }

/-- An authenticator that rejects every request (bad credential). -/
def authReject : DAVAuth :=
  { pick_out_user := fun _ => (none, "no permission") }

/-- An authenticator that rejects every request (expired nonce). -/
def authRejectNonce : DAVAuth :=
  { pick_out_user := fun _ => (none, "nonce expired") }

/-- A concrete WebDAV engine answering 207 with body `"dav"`. -/
def exWebDAV : WebDAV :=
  { distribute := fun _ => { status := 207, content := utf8 "dav" } }

/-- A concrete admin web page answering 200 with body `"index"`. -/
def exWebPage : WebPage :=
  { enter := fun _ => (200, "index") }

/-- A server whose authenticator accepts everyone. -/
def exServerA : Server :=
  { dav_auth := authAccept, web_dav := exWebDAV, web_page := exWebPage }

/-- A server whose authenticator rejects everyone. -/
def exServerR : Server :=
  { dav_auth := authReject, web_dav := exWebDAV, web_page := exWebPage }

/-- A server whose authenticator rejects everyone with a nonce message. -/
def exServerRN : Server :=
  { dav_auth := authRejectNonce, web_dav := exWebDAV, web_page := exWebPage }

/-- A concrete GET request for `/_`. -/
def exReqAdmin : DAVRequest :=
  { method := DAVMethod.GET, src_path := { parts := ["_"] } }

/-- A concrete PROPFIND request for `/_`. -/
def exReqPropfindAdmin : DAVRequest :=
  { method := DAVMethod.PROPFIND, src_path := { parts := ["_"] } }

/-- A concrete GET request for `/a/b`. -/
def exReqPlain : DAVRequest :=
  { method := DAVMethod.GET, src_path := { parts := ["a", "b"] } }

/-- A concrete static-asset responder for the middleware. -/
def exStaticServe : DAVPath → DAVResponse :=
  fun _ => { status := 200, content := utf8 "asset" }

/-- A concrete path under the static prefix. -/
def exStaticPath : DAVPath :=
  { parts := ["_", "static", "style.css"] }

/-- The first path segment being present forces a positive segment count:
`parts[0]? = some a` gives `count ≥ 1`. -/
theorem DAVPath.count_pos_of_head (p : DAVPath) (a : String)
    (hp : p.parts[0]? = some a) : p.count ≥ 1 := by
  cases hparts : p.parts with
  | nil => rw [hparts] at hp; simp at hp
  | cons b t => simp [DAVPath.count, hparts]

/-- Unfolding lemma for `Server.handle` when authentication fails. -/
theorem Server.handle_auth_none (s : Server) (r : DAVRequest)
    (h : (s.dav_auth.pick_out_user r).1 = none) :
    s.handle r =
      (DAVAuth.create_response_401 { r with user := none }
        (s.dav_auth.pick_out_user r).2,
       [DispatchEvent.authenticate]) := by
  simp only [Server.handle]
  rw [h]

/-- Unfolding lemma for `Server.handle` when authentication succeeds. -/
theorem Server.handle_auth_some (s : Server) (r : DAVRequest) (u : DAVUser)
    (h : (s.dav_auth.pick_out_user r).1 = some u) :
    s.handle r =
      if r.method = DAVMethod.GET ∧ r.src_path.count ≥ 1 ∧
          r.src_path.parts[0]? = some "_" then
        ({ status := (s.web_page.enter { r with user := some u }).1,
           content := utf8 (s.web_page.enter { r with user := some u }).2 },
         [DispatchEvent.authenticate, DispatchEvent.adminRoute])
      else
        (s.web_dav.distribute { r with user := some u },
         [DispatchEvent.authenticate, DispatchEvent.webdavDispatch]) := by
  simp only [Server.handle]
  rw [h]

-- ------------------------------------------------------------------
-- Claims
-- ------------------------------------------------------------------

/-- C1: for every incoming request the credential check is the first
collaborator invoked, and on authentication failure (`pick_out_user`
yields no user) the response has status 401 and the trace is exactly the
credential check: neither the administrative web-page collaborator nor
the WebDAV dispatcher is invoked for that request. -/
theorem c1_auth_first_and_failure_short_circuits (s : Server)
    (r : DAVRequest) (h : (s.dav_auth.pick_out_user r).1 = none) :
    (∀ r' : DAVRequest,
      ((s.handle r').2).head? = some DispatchEvent.authenticate) ∧
    (s.handle r).1.status = 401 ∧
    (s.handle r).2 = [DispatchEvent.authenticate] := by
  refine ⟨fun r' => ?_, ?_, ?_⟩
  · cases hO : (s.dav_auth.pick_out_user r').1 with
    | none => rw [Server.handle_auth_none s r' hO]; rfl
    | some u =>
      rw [Server.handle_auth_some s r' u hO]
      split <;> rfl
  · rw [Server.handle_auth_none s r h]; rfl
  · rw [Server.handle_auth_none s r h]

/-- Witness for C1: the rejecting server on a plain request. -/
theorem c1_auth_first_and_failure_short_circuits_witness :
    (∀ r' : DAVRequest,
      ((exServerR.handle r').2).head? = some DispatchEvent.authenticate) ∧
    (exServerR.handle exReqPlain).1.status = 401 ∧
    (exServerR.handle exReqPlain).2 = [DispatchEvent.authenticate] :=
  c1_auth_first_and_failure_short_circuits exServerR exReqPlain rfl

/-- C2, counterexample to the claim as stated: an authenticated request
whose first path segment is `"_"` but whose method is `PROPFIND` is not
handed to the web-page collaborator (the trace has no `adminRoute`), and
the response status is the WebDAV engine's 207, not the collaborator's
200 — `Server.handle` routes to the admin page only when the method is
also `GET`. -/
theorem c2_admin_not_verbatim_counterexample :
    (exServerA.dav_auth.pick_out_user exReqPropfindAdmin).1 = some exUser ∧
    exReqPropfindAdmin.src_path.parts[0]? = some "_" ∧
    DispatchEvent.adminRoute ∉ (exServerA.handle exReqPropfindAdmin).2 ∧
    (exServerA.handle exReqPropfindAdmin).1.status ≠
      (exWebPage.enter exReqPropfindAdmin).1 := by
  decide

/-- C2, amended: for every authenticated **GET** request whose first path
segment is `"_"`, the request is handed to the administrative web-page
collaborator and the response carries exactly the status the collaborator
produced and, as body, the UTF-8 encoding of the body it produced,
unmodified. -/
theorem c2_admin_get_verbatim (s : Server) (r : DAVRequest) (u : DAVUser)
    (m : String) (h : s.dav_auth.pick_out_user r = (some u, m))
    (hg : r.method = DAVMethod.GET)
    (hp : r.src_path.parts[0]? = some "_") :
    (s.handle r).2 = [DispatchEvent.authenticate, DispatchEvent.adminRoute] ∧
    (s.handle r).1.status = (s.web_page.enter { r with user := some u }).1 ∧
    (s.handle r).1.content =
      utf8 (s.web_page.enter { r with user := some u }).2 := by
  have hcount : r.src_path.count ≥ 1 := DAVPath.count_pos_of_head _ _ hp
  have h1 : (s.dav_auth.pick_out_user r).1 = some u := by rw [h]
  rw [Server.handle_auth_some s r u h1, if_pos ⟨hg, hcount, hp⟩]
  exact ⟨rfl, rfl, rfl⟩

/-- Witness for C2 (amended): the accepting server on `GET /_`. -/
theorem c2_admin_get_verbatim_witness :
    (exServerA.handle exReqAdmin).2 =
      [DispatchEvent.authenticate, DispatchEvent.adminRoute] ∧
    (exServerA.handle exReqAdmin).1.status =
      (exServerA.web_page.enter { exReqAdmin with user := some exUser }).1 ∧
    (exServerA.handle exReqAdmin).1.content =
      utf8 (exServerA.web_page.enter { exReqAdmin with user := some exUser }).2 :=
  c2_admin_get_verbatim exServerA exReqAdmin exUser "" rfl rfl rfl

/-- C3: if WebDAV engine construction raises `ProviderInitException`,
`Server.__init__` takes the `sys.exit()` branch: the init outcome is the
process exit, no `Server` value is produced, and hence no request is
ever handled (the failure cannot surface as a per-request error). -/
theorem c3_provider_init_failure_exits (dav_auth : DAVAuth)
    (e : ProviderInitException) (web_page : WebPage) :
    Server.init dav_auth (Except.error e) web_page = InitResult.exited :=
  rfl

/-- C4: every authentication-failure response has status 401 and carries a
`WWW-Authenticate` challenge entry for each supported scheme, the
plaintext-equivalent (Basic) one and the nonce-challenge (Digest) one. -/
theorem c4_401_carries_both_challenges (s : Server) (r : DAVRequest)
    (h : (s.dav_auth.pick_out_user r).1 = none) :
    (s.handle r).1.status = 401 ∧
    ("WWW-Authenticate", DAVAuth.basic_challenge) ∈ (s.handle r).1.headers ∧
    ("WWW-Authenticate", DAVAuth.digest_challenge) ∈ (s.handle r).1.headers := by
  rw [Server.handle_auth_none s r h]
  refine ⟨rfl, ?_, ?_⟩ <;> simp [DAVAuth.create_response_401]

/-- Witness for C4: the rejecting server on a plain request. -/
theorem c4_401_carries_both_challenges_witness :
    (exServerR.handle exReqPlain).1.status = 401 ∧
    ("WWW-Authenticate", DAVAuth.basic_challenge) ∈
      (exServerR.handle exReqPlain).1.headers ∧
    ("WWW-Authenticate", DAVAuth.digest_challenge) ∈
      (exServerR.handle exReqPlain).1.headers :=
  c4_401_carries_both_challenges exServerR exReqPlain rfl

/-- C5: two requests failing authentication for different internal reasons
(different `pick_out_user` messages, e.g. bad credential versus expired
nonce) receive identical 401 responses: the response sent to the client
does not depend on the failure cause. -/
theorem c5_auth_failure_cause_hidden (s₁ s₂ : Server) (r : DAVRequest)
    (m₁ m₂ : String) (h₁ : s₁.dav_auth.pick_out_user r = (none, m₁))
    (h₂ : s₂.dav_auth.pick_out_user r = (none, m₂)) :
    (s₁.handle r).1 = (s₂.handle r).1 := by
  have g₁ : (s₁.dav_auth.pick_out_user r).1 = none := by rw [h₁]
  have g₂ : (s₂.dav_auth.pick_out_user r).1 = none := by rw [h₂]
  rw [Server.handle_auth_none s₁ r g₁, Server.handle_auth_none s₂ r g₂]
  rfl

/-- Witness for C5: bad-credential versus expired-nonce rejection yield the
same response. -/
theorem c5_auth_failure_cause_hidden_witness :
    (exServerR.handle exReqPlain).1 = (exServerRN.handle exReqPlain).1 :=
  c5_auth_failure_cause_hidden exServerR exServerRN exReqPlain
    "no permission" "nonce expired" rfl rfl

/-- C6: `Server.handle` is a total function returning exactly one response,
and its collaborator trace is always one of three sequences — the
credential check alone (authentication failed and short-circuited), the
credential check then the admin route, or the credential check then the
WebDAV dispatch — so each stage runs at most once and in order. -/
theorem c6_single_traversal (s : Server) (r : DAVRequest) :
    (s.handle r).2 = [DispatchEvent.authenticate] ∨
    (s.handle r).2 =
      [DispatchEvent.authenticate, DispatchEvent.adminRoute] ∨
    (s.handle r).2 =
      [DispatchEvent.authenticate, DispatchEvent.webdavDispatch] := by
  cases hO : (s.dav_auth.pick_out_user r).1 with
  | none => left; rw [Server.handle_auth_none s r hO]
  | some u =>
    rw [Server.handle_auth_some s r u hO]
    split
    · right; left; rfl
    · right; right; rfl

/-- C7: the authentication subsystem's outcome is the explicit value pair
`(identity-or-absent, message)` — in the embedding, `pick_out_user`'s
return type — and the dispatcher maps the absent-identity outcome to the
401 status itself; `handle` is total, so no authentication failure
escapes as an exception. -/
theorem c7_auth_outcome_mapped_to_status (s : Server) (r : DAVRequest) :
    (s.dav_auth.pick_out_user r).1 = none → (s.handle r).1.status = 401 := by
  intro h
  rw [Server.handle_auth_none s r h]
  rfl

/-- Witness for C7: the rejecting server on a plain request. -/
theorem c7_auth_outcome_mapped_to_status_witness :
    (exServerR.handle exReqPlain).1.status = 401 :=
  c7_auth_outcome_mapped_to_status exServerR exReqPlain rfl

/-- C8: when request construction raises `NotASGIRequestException`,
`Server.__call__` responds 400 with the exception's message as body, and
its trace is empty: neither the credential check nor any dispatch stage
runs for that request. -/
theorem c8_not_asgi_request_400 (s : Server) (e : NotASGIRequestException) :
    Server.call s (Except.error e) =
      ({ status := 400, headers := [], content := utf8 e.message }, []) :=
  rfl

/-- C9: an authenticated request whose first path segment is `"_"` but
whose method is not `GET` is not handed to the web-page collaborator: it
is dispatched to the WebDAV engine like any other request. -/
theorem c9_admin_route_requires_get (s : Server) (r : DAVRequest)
    (u : DAVUser) (m : String)
    (h : s.dav_auth.pick_out_user r = (some u, m))
    (hm : r.method ≠ DAVMethod.GET)
    (_hp : r.src_path.parts[0]? = some "_") :
    s.handle r = (s.web_dav.distribute { r with user := some u },
      [DispatchEvent.authenticate, DispatchEvent.webdavDispatch]) := by
  have h1 : (s.dav_auth.pick_out_user r).1 = some u := by rw [h]
  rw [Server.handle_auth_some s r u h1, if_neg (fun hc => hm hc.1)]

/-- Witness for C9: the accepting server on `PROPFIND /_` goes to the
WebDAV engine. -/
theorem c9_admin_route_requires_get_witness :
    exServerA.handle exReqPropfindAdmin =
      (exServerA.web_dav.distribute
        { exReqPropfindAdmin with user := some exUser },
       [DispatchEvent.authenticate, DispatchEvent.webdavDispatch]) :=
  c9_admin_route_requires_get exServerA exReqPropfindAdmin exUser "" rfl
    (by decide) rfl

/-- C10: a request whose path falls under the static prefix `"_/static"`
is answered by the static-file middleware that `get_app` wraps around the
server: the middleware's trace is empty, so the server — and with it the
credential check — is never invoked; the request is served without
authentication. -/
theorem c10_static_assets_bypass_auth (s : Server)
    (static_serve : DAVPath → DAVResponse)
    (parse : Except NotASGIRequestException DAVRequest) (path : DAVPath)
    (h : path.parts.take 2 = ["_", "static"]) :
    get_app s static_serve parse path = (static_serve path, []) := by
  unfold get_app ASGIMiddlewareStaticFile
  rw [show (["_", "static"] : List String).length = 2 from rfl, if_pos h]

/-- Witness for C10: `GET /_/static/style.css` against the rejecting
server is served by the middleware, with no dispatch event. -/
theorem c10_static_assets_bypass_auth_witness :
    get_app exServerR exStaticServe (Except.ok exReqPlain) exStaticPath =
      (exStaticServe exStaticPath, []) :=
  c10_static_assets_bypass_auth exServerR exStaticServe
    (Except.ok exReqPlain) exStaticPath rfl
